import Mathlib

/-!
Shallow embedding of the asynchronous job orchestration core of
`ui/backend/app.py` (FastAPI backend of automation-capi), together with
proofs checking the natural-language specification against it.

Modelling conventions:
* Python dict values reaching the job runners are modelled by `PyVal`;
  dicts by association lists (`PyDict`).
* `datetime.now()` and `time.time()` are supplied as explicit arguments.
* External processes (`subprocess.run` / `Popen.communicate`) are modelled
  by oracle values of type `ProcResult` describing the observable outcome
  (exit code + captured streams, timeout, `FileNotFoundError`, or any other
  raised exception).
* Log lines are modelled by the inductive `LogEntry`, one constructor per
  `append`/`extend` site in the source; the constructor plus its payload
  determines the Python string appended there.
-/

namespace ACapi

/-- Python values stored in the config dicts handed to the runners. -/
inductive PyVal : Type
  | str (s : String)
  | bool (b : Bool)
  | int (n : Int)
  | strList (xs : List String)
  | none
deriving DecidableEq

/-- Python truthiness (`if value:`) for the values we model. -/
def PyVal.truthy : PyVal → Bool
  | .str s => !(s == "")
  | .bool b => b
  | .int n => !(n == 0)
  | .strList xs => !xs.isEmpty
  | .none => false

/-- Rendering of a value inside an f-string (`f"...{value}"`). -/
def PyVal.fstr : PyVal → String
  | .str s => s
  | .bool b => if b then "True" else "False"
  | .int n => toString n
  | .strList xs => toString xs
  | .none => "None"

/-- A Python dict, as the ordered association list of its items. -/
def PyDict : Type := List (String × PyVal)

/-- `d.get(k)` — first binding wins, `None`-as-absent is `Option.none`. -/
def PyDict.get? (d : PyDict) (k : String) : Option PyVal :=
  (List.find? (fun p => p.1 == k) d).map (fun p => p.2)

/-- `d[k]`: the value, or the `KeyError`, whose `str()` is `'k'`. -/
def PyDict.item (d : PyDict) (k : String) : Except String PyVal :=
  match d.get? k with
  | some v => .ok v
  | none => .error ("\x27" ++ k ++ "\x27")

/-! ### Python string primitives

Structural re-implementations over `String.data`, so that every use is
kernel-computable (the core `String.trim`/`toLower`/`replace`/`splitOn`
are Substring- or well-founded-recursion based and do not reduce). -/

/-- Whether `n` is a prefix of the character list `h`. -/
def startsWithL : List Char → List Char → Bool
  | [], _ => true
  | _ :: _, [] => false
  | a :: as, b :: bs => a == b && startsWithL as bs

/-- Whether `n` occurs as a contiguous run inside `h`. -/
def hasSubL : List Char → List Char → Bool
  | n, [] => n.isEmpty
  | n, c :: t => startsWithL n (c :: t) || hasSubL n t

/-- Python `needle in hay` on strings. -/
def containsSub (hay needle : String) : Bool :=
  hasSubL needle.data hay.data

/-- Python `s.strip()` (whitespace from both ends). -/
def pyStrip (s : String) : String :=
  ⟨((s.data.dropWhile Char.isWhitespace).reverse.dropWhile
      Char.isWhitespace).reverse⟩

/-- Python `s.lower()` (the ASCII case used by the app's markers). -/
def pyLower (s : String) : String :=
  ⟨s.data.map Char.toLower⟩

/-- `s.split(c)` on a single-character separator; `"".split(c) = [""]`. -/
def splitCharAux (c : Char) : List Char → List Char → List String
  | [], acc => [⟨acc.reverse⟩]
  | x :: xs, acc =>
      if x == c then ⟨acc.reverse⟩ :: splitCharAux c xs []
      else splitCharAux c xs (x :: acc)

/-- `s.split(c)` on a single-character separator. -/
def splitChar (c : Char) (s : String) : List String :=
  splitCharAux c s.data []

/-- `s.split(c, 1)`: the parts around the first occurrence, if any
(`Option.none` when `c not in s`). -/
def splitOnceAux (c : Char) : List Char → List Char → Option (String × String)
  | [], _ => Option.none
  | x :: xs, acc =>
      if x == c then some (⟨acc.reverse⟩, ⟨xs⟩)
      else splitOnceAux c xs (x :: acc)

/-- `s.split(c, 1)` paired with the Python `c in s` gate. -/
def splitOnce (c : Char) (s : String) : Option (String × String) :=
  splitOnceAux c s.data []

/-- Fuelled worker for `s.replace(pat, rep)`; the fuel (initially the
string length, which bounds the number of steps) only makes the structural
recursion explicit. -/
def replaceFuel (pat rep : List Char) : Nat → List Char → List Char
  | 0, s => s
  | _ + 1, [] => []
  | fuel + 1, x :: xs =>
      if startsWithL pat (x :: xs) then
        rep ++ replaceFuel pat rep fuel (List.drop (pat.length - 1) xs)
      else x :: replaceFuel pat rep fuel xs

/-- Python `s.replace(pat, rep)` (non-empty `pat` at every use site). -/
def pyReplace (s pat rep : String) : String :=
  ⟨replaceFuel pat.data rep.data s.data.length s.data⟩

/-- Outcome of one external process invocation, as observed by the caller. -/
inductive ProcResult : Type
  | exited (rc : Int) (stdout stderr : String)
  | timedOut (emsg : String)
  | notFound
  | raised (emsg : String)
deriving DecidableEq

/-- Status strings written into `jobs[job_id]["status"]`. -/
inductive JobStatus : Type
  | pending
  | running
  | completed
  | failed
deriving DecidableEq

def JobStatus.toStr : JobStatus → String
  | .pending => "pending"
  | .running => "running"
  | .completed => "completed"
  | .failed => "failed"

/-- Timestamp-like values that can sit in a job's `created_at` field.
Each constructor records the branch of `normalize_timestamp` the value
takes, carrying the resulting datetime ordinal where the parse succeeds
(external parses — `fromtimestamp`, `fromisoformat` — are resolved in the
constructor choice, since we do not re-implement CPython datetime). -/
inductive TsVal : Type
  | tsNone
  | tsDatetime (t : Nat)
  | tsNumberOk (t : Nat)
  | tsNumberBad
  | tsStrEmptyOrZero
  | tsStrOk (t : Nat)
  | tsStrBad
  | tsOther
deriving DecidableEq

/-- One appended log line; constructors map 1-1 to append/extend sites. -/
inductive LogEntry : Type
  | stdoutLine (s : String)
  | stderrLine (s : String)
  | emptyLine
  | stderrMarker
  | parsedDocs (n : Nat)
  | applying (idx total : Nat) (kind name : String)
  | applySuccess (out : String)
  | secretCheck (ns : String)
  | secretCopied (ns : String)
  | secretCopyFailed (err : String)
  | secretNotFound
  | secretCopyError (msg : String)
  | applyFailed (err : String)
  | applyError (msg : String)
  | allApplied
  | errorLine (msg : String)
deriving DecidableEq

/-- One record of the in-memory `jobs` registry. -/
structure Job : Type where
  status : JobStatus
  progress : Int
  message : String
  logs : List LogEntry
  started_at : Option Nat := Option.none
  completed_at : Option Nat := Option.none
  created_at : Option TsVal := Option.none
  return_code : Option Int := Option.none
  error : Option String := Option.none
deriving DecidableEq

/-- The `jobs` registry: insertion-ordered dict from job id to record. -/
def JobMap : Type := List (String × Job)

/-- `jobs.get(job_id)`. -/
def jobsGet (m : JobMap) (id : String) : Option Job :=
  (List.find? (fun p => p.1 == id) m).map (fun p => p.2)

/-- `jobs[job_id] = j`: replace in place, or append a fresh binding. -/
def jobsSet (m : JobMap) (id : String) (j : Job) : JobMap :=
  match m with
  | [] => [(id, j)]
  | (k, v) :: rest =>
      if k == id then (id, j) :: rest else (k, v) :: jobsSet rest id j

/-! ## run_ansible_playbook (app.py lines 263-368) -/

/-- `-e key=value` fragment guarded by `if config.get(key):`. -/
def optFlag (config : PyDict) (key flag : String) : List String :=
  match config.get? key with
  | some v => if v.truthy then ["-e", flag ++ "=" ++ v.fstr] else []
  | Option.none => []

/-- `",".join(config["subnets"])` — only ever reached on a string list. -/
def joinComma : PyVal → String
  | .strList xs => String.intercalate "," xs
  | v => v.fstr

/-- The `-e manual_subnets=...` fragment guarded by `if config.get("subnets"):`. -/
def subnetsFlag (config : PyDict) : List String :=
  match config.get? "subnets" with
  | some v => if v.truthy then ["-e", "manual_subnets=" ++ joinComma v] else []
  | Option.none => []

/-- The ansible command list built by `run_ansible_playbook`; a missing
`name`/`version`/`region` key raises `KeyError` (the `Except.error`). -/
def buildPlaybookCmd (playbook : String) (config : PyDict) :
    Except String (List String) :=
  match config.item "name" with
  | .error e => .error e
  | .ok name =>
  match config.item "version" with
  | .error e => .error e
  | .ok version =>
  match config.item "region" with
  | .error e => .error e
  | .ok region =>
  let base := ["ansible-playbook", playbook,
    "-e", "cluster_name=" ++ name.fstr,
    "-e", "openshift_version=" ++ version.fstr,
    "-e", "aws_region=" ++ region.fstr,
    "-e", "skip_ansible_runner=true"]
  let network :=
    if (config.get? "network_automation").elim false PyVal.truthy then
      ["-e", "enable_network_automation=true"]
    else
      subnetsFlag config ++ optFlag config "vpc_id" "manual_vpc_id"
  let roles :=
    if (config.get? "role_automation").elim false PyVal.truthy then
      ["-e", "enable_role_automation=true"]
    else
      optFlag config "installer_role_arn" "manual_installer_role_arn" ++
      optFlag config "support_role_arn" "manual_support_role_arn" ++
      optFlag config "worker_role_arn" "manual_worker_role_arn" ++
      optFlag config "oidc_id" "manual_oidc_id" ++
      optFlag config "ingress_arn" "manual_ingress_arn" ++
      optFlag config "image_registry_arn" "manual_image_registry_arn" ++
      optFlag config "storage_arn" "manual_storage_arn" ++
      optFlag config "network_arn" "manual_network_arn" ++
      optFlag config "kube_cloud_controller_arn" "manual_kube_cloud_controller_arn" ++
      optFlag config "node_pool_management_arn" "manual_node_pool_management_arn" ++
      optFlag config "control_plane_operator_arn" "manual_control_plane_operator_arn" ++
      optFlag config "kms_provider_arn" "manual_kms_provider_arn"
  .ok (base ++ network ++ roles)

/-- `run_ansible_playbook(playbook, config, job_id)` as a transformer of the
job record, with the subprocess outcome supplied by `proc` and
`datetime.now()` by `now`. -/
def run_ansible_playbook (playbook : String) (config : PyDict)
    (proc : List String → ProcResult) (now : Nat) (j : Job) : Job :=
  let j := { j with status := .running, progress := 10,
                    message := "Starting " ++ playbook ++ " execution" }
  match buildPlaybookCmd playbook config with
  | .error e => { j with status := .failed, message := "Error: " ++ e }
  | .ok cmd =>
    let j := { j with progress := 30, message := "Executing ansible playbook" }
    match proc cmd with
    | .exited rc out err =>
        let j :=
          if rc == 0 then
            { j with status := .completed, progress := 100,
                     message := "Cluster creation completed successfully" }
          else
            { j with status := .failed, message := "Playbook failed: " ++ err }
        { j with logs := j.logs ++ (splitChar '\n' out).map LogEntry.stdoutLine,
                 completed_at := some now }
    | .timedOut _ =>
        { j with status := .failed, message := "Job timed out after 30 minutes" }
    | .notFound =>
        -- no FileNotFoundError handler here: the generic `except Exception`
        -- catches it; str(FileNotFoundError) is its message
        { j with status := .failed,
                 message := "Error: [Errno 2] No such file or directory: \x27ansible-playbook\x27" }
    | .raised e =>
        { j with status := .failed, message := "Error: " ++ e }

/-! ## POST /api/clusters (create_cluster, lines 541-591) -/

/-- The `ClusterConfig` pydantic model (the fields used by the flow). -/
structure ClusterConfig : Type where
  name : String
  version : String := "4.20.0"
  region : String := "us-west-2"
  instance_type : String := "m5.xlarge"
  min_replicas : Int := 2
  max_replicas : Int := 3
  network_automation : Bool := true
  role_automation : Bool := false
  availability_zones : List String := ["us-west-2a", "us-west-2b"]
  cidr_block : String := "10.0.0.0/16"
deriving DecidableEq

/-- The `extra_vars` dict that `create_cluster` passes to the background
task (app.py lines 573-581). -/
def create_cluster_extra_vars (c : ClusterConfig) : PyDict :=
  [("cluster_name", .str c.name),
   ("openshift_version", .str c.version),
   ("aws_region", .str c.region),
   ("create_rosa_roles", .bool c.role_automation),
   ("create_rosa_network", .bool c.network_automation),
   ("network_cidr", .str c.cidr_block),
   ("availability_zone_count", .int c.availability_zones.length)]

/-- The job record inserted by `create_cluster` (lines 559-567). -/
def newClusterJob (now : Nat) : Job :=
  { status := .pending, progress := 0,
    message := "Job queued for execution",
    started_at := some now, logs := [] }

/-- The job record inserted by `apply_provisioning_yaml` (lines 6506-6515). -/
def newApplyYamlJob (now : Nat) : Job :=
  { status := .pending, progress := 0,
    message := "Queued: Applying provisioning YAML",
    logs := [], created_at := some (.tsDatetime now) }

/-- `GET /api/jobs/{job_id}` (lines 699-705): the record, or HTTP 404. -/
def get_job_status (m : JobMap) (id : String) : Except Nat Job :=
  match jobsGet m id with
  | some j => .ok j
  | Option.none => .error 404

/-! ## run_playbook_background (app.py lines 4263-4333) -/

/-- `result.stdout.split("\n") if result.stdout else []`. -/
def stdoutLogs (out : String) : List LogEntry :=
  if out == "" then [] else (splitChar '\n' out).map LogEntry.stdoutLine

/-- `["", "STDERR:", *result.stderr.split("\n")]` when stderr is non-empty. -/
def stderrLogs (err : String) : List LogEntry :=
  if err == "" then []
  else [LogEntry.emptyLine, LogEntry.stderrMarker] ++ (splitChar '\n' err).map LogEntry.stderrLine

/-- `run_playbook_background(playbook, extra_vars, job_id, description)` as a
job transformer; `proc` supplies the `subprocess.run` outcome. -/
def run_playbook_background (playbook : String) (proc : ProcResult)
    (now : Nat) (j : Job) : Job :=
  let j := { j with status := .running, progress := 10,
                    message := "Starting playbook: " ++ playbook }
  let j := { j with progress := 30, message := "Executing ansible playbook" }
  match proc with
  | .exited rc out err =>
      let j :=
        if rc == 0 then
          { j with status := .completed, progress := 100,
                   message := "Playbook completed successfully" }
        else
          { j with status := .failed,
                   message := "Playbook failed with return code " ++ toString rc }
      { j with logs := j.logs ++ stdoutLogs out ++ stderrLogs err,
               completed_at := some now, return_code := some rc }
  | .timedOut _ =>
      { j with status := .failed, message := "Playbook timed out after 30 minutes",
               completed_at := some now }
  | .notFound =>
      { j with status := .failed,
               message := "Error: [Errno 2] No such file or directory: \x27ansible-playbook\x27",
               completed_at := some now }
  | .raised e =>
      { j with status := .failed, message := "Error: " ++ e,
               completed_at := some now }

/-! ## run_ansible_task_background (app.py lines 3059-3361) -/

/-- Oracles for `run_ansible_task_background`: whether the requested
playbook/task file exists, the process outcome, and the results of the
`re.search` calls used to extract a detailed error message (the regex
engine is external to the embedding; each function stands for one
`re.search(...)` returning the matched group, if any). -/
structure TaskOracle : Type where
  fileExists : Bool
  proc : ProcResult
  brokenPipe : Option (String × String) := Option.none
  extractFailMsg : String → Option String
  extractTaskErr : String → Option String
  extractAction : String → Option String

/-- `detailed_error` for the direct-playbook branch (lines 3112-3125). -/
def detailedErrorPlaybook (o : TaskOracle) (rc : Int) (out : String) : String :=
  if rc != 0 && out != "" then
    match o.extractFailMsg out with
    | some m => pyReplace (pyStrip m) "\\n" "\n"
    | Option.none => ""
  else ""

/-- `detailed_error` for the task branch (lines 3292-3319): the fail-task
regex first, then the `[ERROR]` pattern, then the `Action failed` refinement. -/
def detailedErrorTask (o : TaskOracle) (rc : Int) (out : String) : String :=
  if rc != 0 && out != "" then
    match o.extractFailMsg out with
    | some m => pyReplace (pyStrip m) "\\n" "\n"
    | Option.none =>
      match o.extractTaskErr out with
      | some d =>
        match o.extractAction (pyStrip d) with
        | some a => pyStrip a
        | Option.none => pyStrip d
      | Option.none => ""
  else ""

/-- `error_message = detailed_error if detailed_error else (stderr if rc != 0 else "")`. -/
def taskErrorMessage (detailed : String) (rc : Int) (err : String) : String :=
  if detailed != "" then detailed else (if rc != 0 then err else "")

/-- The terminal write shared by both branches (lines 3136-3149 / 3330-3343):
status, message, `completed_at`, and wholesale replacement of `logs`. -/
def taskTerminalWrite (description : String) (nowStr : String) (now : Nat)
    (rc : Int) (out err errMsg : String) (j : Job) : Job :=
  let j :=
    if rc == 0 then
      { j with status := .completed, progress := 100,
               message := description ++ " completed and refreshed at " ++ nowStr,
               completed_at := some now }
    else
      { j with status := .failed,
               message := description ++ " failed: " ++ errMsg,
               error := some errMsg, completed_at := some now }
  { j with logs := stdoutLogs out ++ (if err == "" then [] else (splitChar '\n' err).map LogEntry.stderrLine) }

/-- The generic `except Exception` handler (lines 3352-3361). -/
def taskExceptHandler (description : String) (emsg : String) (now : Nat)
    (j : Job) : Job :=
  { j with status := .failed, message := description ++ " failed: " ++ emsg,
           error := some emsg, completed_at := some now }

/-- `run_ansible_task_background` as a job transformer.  `playbookBranch`
selects the `if playbook_file:` branch (truthiness of the argument); the
ansible command itself is irrelevant to the job record and is left to the
`proc` oracle.  In the task branch a `TimeoutExpired` from `communicate`
is re-raised into the outer handler, and a `BrokenPipeError` is converted
into an `rc = -1` result (lines 3265-3286). -/
def run_ansible_task_background (description : String) (playbookBranch : Bool)
    (o : TaskOracle) (fileName : String) (nowStr : String) (now : Nat)
    (j : Job) : Job :=
  let j := { j with status := .running, progress := 10,
                    message := description ++ " in progress..." }
  if playbookBranch then
    if !o.fileExists then
      taskExceptHandler description ("Playbook file not found: " ++ fileName) now j
    else
      match o.proc with
      | .exited rc out err =>
          let errMsg := taskErrorMessage (detailedErrorPlaybook o rc out) rc err
          taskTerminalWrite description nowStr now rc out err errMsg j
      | .timedOut e => taskExceptHandler description e now j
      | .notFound =>
          taskExceptHandler description
            "[Errno 2] No such file or directory: \x27ansible-playbook\x27" now j
      | .raised e => taskExceptHandler description e now j
  else
    if !o.fileExists then
      taskExceptHandler description ("Task file not found: " ++ fileName) now j
    else
      match o.proc with
      | .exited rc out err =>
          let errMsg := taskErrorMessage (detailedErrorTask o rc out) rc err
          taskTerminalWrite description nowStr now rc out err errMsg j
      | .timedOut e => taskExceptHandler description e now j
      | .notFound =>
          taskExceptHandler description
            "[Errno 2] No such file or directory: \x27ansible-playbook\x27" now j
      | .raised e =>
          match o.brokenPipe with
          | some (out, err) =>
              -- BrokenPipeError branch: rc := -1, stderr prefixed
              let err := "Broken pipe error: " ++ err
              let errMsg := taskErrorMessage (detailedErrorTask o (-1) out) (-1) err
              taskTerminalWrite description nowStr now (-1) out err errMsg j
          | Option.none => taskExceptHandler description e now j

/-! ## apply_yaml_background (app.py lines 6518-6676) -/

/-- One parsed YAML document: `kind`, `metadata.name`, `metadata.namespace`
(`Option.none` where the key is absent). -/
structure YamlDoc : Type where
  kind : Option String := Option.none
  mname : Option String := Option.none
  mnamespace : Option String := Option.none
deriving DecidableEq

/-- Oracles for the applier: per document position (the 1-based `idx` of
`enumerate`), the `oc apply` outcome, the `rosa-creds-secret` lookup
outcome and the copy-pipeline outcome. -/
structure ApplyOracle : Type where
  apply : Nat → ProcResult
  checkSecret : Nat → ProcResult
  copySecret : Nat → ProcResult

/-- Log lines appended by the best-effort secret copy (lines 6586-6653),
returned as the suffix appended to the job's logs. -/
def secretExtra (o : ApplyOracle) (idx : Nat) (kind name : String)
    (mns : Option String) : List LogEntry :=
  let nsName : Option String :=
    match mns with
    | some s => some s
    | Option.none => if kind == "Namespace" then some name else Option.none
  match nsName with
  | Option.none => []
  | some ns =>
    if ns == "" then []
    else
      [LogEntry.secretCheck ns] ++
      match o.checkSecret idx with
      | .exited rc _ _ =>
          if rc == 0 then
            match o.copySecret idx with
            | .exited rc2 _ err2 =>
                if rc2 == 0 then [LogEntry.secretCopied ns]
                else [LogEntry.secretCopyFailed (pyStrip err2)]
            | .timedOut e => [LogEntry.secretCopyError e]
            | .notFound => [LogEntry.secretCopyError "[Errno 2] No such file or directory: \x27bash\x27"]
            | .raised e => [LogEntry.secretCopyError e]
          else [LogEntry.secretNotFound]
      | .timedOut e => [LogEntry.secretCopyError e]
      | .notFound => [LogEntry.secretCopyError "[Errno 2] No such file or directory: \x27oc\x27"]
      | .raised e => [LogEntry.secretCopyError e]

/-- The per-document loop (lines 6537-6662).  On an apply failure the
exception propagates with the job state at the raise point (`Except.error`
carries the `str(e)` plus that state).  `cur` is the float
`current_progress`, modelled exactly as a rational. -/
def applyDocs (o : ApplyOracle) (n : Nat) (inc : ℚ) :
    List (Option YamlDoc) → Nat → ℚ → Job → Except (String × Job) Job
  | [], _, _, j => .ok j
  | Option.none :: rest, idx, cur, j => applyDocs o n inc rest (idx + 1) cur j
  | some d :: rest, idx, cur, j =>
    let kind := d.kind.getD "Unknown"
    let name := d.mname.getD "Unknown"
    let j := { j with logs := j.logs ++ [LogEntry.applying idx n kind name] }
    match o.apply idx with
    | .exited rc out err =>
        if rc == 0 then
          let j := { j with logs := j.logs ++ [LogEntry.applySuccess (pyStrip out)] }
          let j :=
            if kind == "Namespace" || kind == "ManagedCluster" then
              { j with logs := j.logs ++ secretExtra o idx kind name d.mnamespace }
            else j
          let cur := cur + inc
          let j := { j with progress := ⌊cur⌋ }
          applyDocs o n inc rest (idx + 1) cur j
        else
          let j := { j with logs := j.logs ++ [LogEntry.applyFailed (pyStrip err)] }
          .error ("Failed to apply " ++ kind ++ "/" ++ name ++ ": " ++ err, j)
    | .timedOut e => .error (e, j)
    | .notFound =>
        .error ("[Errno 2] No such file or directory: \x27oc\x27", j)
    | .raised e => .error (e, j)

/-- The `except Exception` handler of the applier (lines 6671-6676). -/
def applyYamlExcept (emsg : String) (now : Nat) (j : Job) : Job :=
  { j with status := .failed, message := "Error applying YAML: " ++ emsg,
           logs := j.logs ++ [LogEntry.applyError emsg],
           completed_at := some now, return_code := some 1 }

/-- `apply_yaml_background` as a job transformer.  `docs` is the outcome of
`yaml.safe_load_all(yaml_content)` (a parse error raises into the outer
handler); empty documents appear as `Option.none`. -/
def apply_yaml_background (o : ApplyOracle)
    (docs : Except String (List (Option YamlDoc))) (now : Nat) (j : Job) : Job :=
  let j := { j with status := .running, progress := 10,
                    message := "Parsing YAML resources" }
  match docs with
  | .error m => applyYamlExcept m now j
  | .ok ds =>
    let n := ds.length
    let j := { j with progress := 20,
                      message := "Found " ++ toString n ++ " resource(s) to apply",
                      logs := j.logs ++ [LogEntry.parsedDocs n] }
    let inc : ℚ := 70 / ((max n 1 : ℕ) : ℚ)
    match applyDocs o n inc ds 1 20 j with
    | .ok j' =>
        { j' with status := .completed, progress := 100,
                  message := "Successfully applied " ++ toString n ++ " resource(s)",
                  logs := j'.logs ++ [LogEntry.allApplied],
                  completed_at := some now, return_code := some 0 }
    | .error (m, j') => applyYamlExcept m now j'

/-! ## normalize_timestamp and GET /api/jobs (app.py lines 637-688) -/

/-- `datetime.min`, as the ordinal 0 (every datetime ordinal is a `Nat`). -/
def datetimeMin : Nat := 0

/-- `normalize_timestamp(value)` (lines 637-665); the argument is
`job.get("created_at")`, so `Option.none` is a missing key. -/
def normalize_timestamp (v : Option TsVal) : Nat :=
  match v with
  | Option.none => datetimeMin
  | some .tsNone => datetimeMin
  | some (.tsDatetime t) => t
  | some (.tsNumberOk t) => t
  | some .tsNumberBad => datetimeMin
  | some .tsStrEmptyOrZero => datetimeMin
  | some (.tsStrOk t) => t
  | some .tsStrBad => datetimeMin
  | some .tsOther => datetimeMin

/-- The descending-`created_at` order used by `job_list.sort(key=...,
reverse=True)`. -/
def jobNewerEq (a b : String × Job) : Prop :=
  normalize_timestamp b.2.created_at ≤ normalize_timestamp a.2.created_at

instance : DecidableRel jobNewerEq := fun _ _ =>
  inferInstanceAs (Decidable (_ ≤ _))

instance : IsTotal (String × Job) jobNewerEq :=
  ⟨fun _ _ => Nat.le_total _ _⟩

instance : IsTrans (String × Job) jobNewerEq :=
  ⟨fun _ _ _ h h' => Nat.le_trans h' h⟩

/-- `GET /api/jobs` (lines 668-682): all jobs, newest `created_at` first
(a stable sort, as Python's `list.sort`). -/
def list_jobs (m : JobMap) : JobMap :=
  List.insertionSort jobNewerEq m

/-! ## Websocket /ws/jobs/{job_id} (app.py lines 717-754) -/

/-- One pushed JSON event; `ts` is the poll index standing in for the
`datetime.now().isoformat()` timestamp. -/
structure WsEvent : Type where
  job_id : String
  status : String
  progress : Int
  message : String
  ts : Nat
deriving DecidableEq

/-- `jobs.get(job_id, {})` as seen by one loop iteration: the `(status,
progress, message)` triple with the dict-lookup defaults. -/
def wsSnap (o : Option Job) : String × Int × String :=
  match o with
  | some j => (j.status.toStr, j.progress, j.message)
  | Option.none => ("unknown", 0, "")

/-- `status in ["completed", "failed"]`. -/
def wsTerminal (s : String) : Bool :=
  s == "completed" || s == "failed"

/-- The polling loop (lines 727-749) over a finite observation window
`trace` (the registry snapshot at each 2-second poll); returns the events
pushed, in order. -/
def wsLoop (id : String) : List (Option Job) → Int → Nat → List WsEvent
  | [], _, _ => []
  | o :: rest, last, tick =>
    let (st, pr, msg) := wsSnap o
    let evs := if pr != last then [⟨id, st, pr, msg, tick⟩] else []
    let last := if pr != last then pr else last
    if wsTerminal st then evs
    else evs ++ wsLoop id rest last (tick + 1)

/-- Result of one websocket connection: the events pushed and the close
code (`some 1003` for the unknown-job rejection, `Option.none` for the
plain `websocket.close()` in `finally`). -/
structure WsResult : Type where
  events : List WsEvent
  closeCode : Option Nat
deriving DecidableEq

/-- `websocket_job_updates`: reject unknown ids with close code 1003 and
no events, otherwise run the polling loop with `last_progress = -1`. -/
def websocket_job_updates (m : JobMap) (id : String)
    (trace : List (Option Job)) : WsResult :=
  if (jobsGet m id).isSome then
    ⟨wsLoop id trace (-1) 0, Option.none⟩
  else
    ⟨[], some 1003⟩

/-! ## ROSA status cache (app.py lines 54, 1143-1242) -/

/-- The response dict of `GET /api/rosa/status` (claim-relevant fields;
absent keys are defaulted to `""`/`[]`). -/
structure RosaResp : Type where
  authenticated : Bool
  status : String
  message : String
  error : String := ""
  user_info : List (String × String) := []
  raw_output : String := ""
  fix_command : String := ""
  suggestion : String := ""
deriving DecidableEq

/-- `rosa_status_cache = {"data": None, "timestamp": 0, "ttl": 30}`. -/
structure RosaCache : Type where
  data : Option RosaResp
  timestamp : Int
  ttl : Int
deriving DecidableEq

def rosaCacheInit : RosaCache := ⟨Option.none, 0, 30⟩

/-- Python dict insertion that overwrites an existing key in place. -/
def upsert (m : List (String × String)) (k v : String) :
    List (String × String) :=
  match m with
  | [] => [(k, v)]
  | (k0, v0) :: rest =>
      if k0 == k then (k, v) :: rest else (k0, v0) :: upsert rest k v

/-- One line of the `rosa whoami` parse loop (lines 1167-1170):
`if ":" in line: key, value = line.split(":", 1)`. -/
def rosaUserLine (m : List (String × String)) (line : String) :
    List (String × String) :=
  match splitOnce ':' line with
  | Option.none => m
  | some (k, rest) =>
      upsert m (pyReplace (pyLower (pyStrip k)) " " "_") (pyStrip rest)

/-- `user_info` built from the whole stdout. -/
def rosaUserInfo (out : String) : List (String × String) :=
  (splitChar '\n' out).foldl rosaUserLine []

/-- The cache-miss body of `get_rosa_status` (lines 1156-1242): returns the
response, the new cache, and `true` for "the probe ran". -/
def rosaProbe (c : RosaCache) (now : Int) (probe : ProcResult) :
    RosaResp × RosaCache × Bool :=
  match probe with
  | .exited rc out err =>
      if rc == 0 then
        let resp : RosaResp :=
          { authenticated := true, status := "success",
            message := "ROSA CLI is authenticated and ready",
            user_info := rosaUserInfo out, raw_output := out }
        (resp, { c with data := some resp, timestamp := now }, true)
      else
        let errMsg := if err != "" then err else "Unknown error"
        let (fixCmd, sugg) :=
          if containsSub (pyLower errMsg) "not logged in" ||
             containsSub (pyLower errMsg) "authentication" then
            ("rosa login --env staging --use-auth-code",
             "Run \x27rosa login --env staging --use-auth-code\x27 to authenticate with the ROSA staging environment")
          else if containsSub (pyLower errMsg) "command not found" then
            ("Install ROSA CLI",
             "Install the ROSA CLI from https://console.redhat.com/openshift/downloads")
          else
            ("rosa whoami",
             "Check your ROSA CLI installation and network connectivity")
        ({ authenticated := false, status := "error",
           message := "ROSA CLI authentication failed: " ++ errMsg,
           error := errMsg, fix_command := fixCmd, suggestion := sugg },
         c, true)
  | .timedOut _ =>
      ({ authenticated := false, status := "timeout",
         message := "ROSA CLI command timed out after 5 seconds",
         error := "Command execution timed out",
         fix_command := "rosa whoami",
         suggestion := "Check your network connectivity and try again" },
       c, true)
  | .notFound =>
      ({ authenticated := false, status := "not_installed",
         message := "ROSA CLI is not installed",
         error := "ROSA CLI not found in PATH",
         fix_command := "Install ROSA CLI",
         suggestion := "Install the ROSA CLI from https://console.redhat.com/openshift/downloads" },
       c, true)
  | .raised e =>
      ({ authenticated := false, status := "error",
         message := "Unexpected error checking ROSA status: " ++ e,
         error := e, fix_command := "rosa whoami",
         suggestion := "Check your ROSA CLI installation and try again" },
       c, true)

/-- `GET /api/rosa/status` (lines 1143-1242): serve from the cache when the
entry is present and fresh, otherwise run the probe. -/
def get_rosa_status (c : RosaCache) (now : Int) (probe : ProcResult) :
    RosaResp × RosaCache × Bool :=
  match c.data with
  | some d =>
      if now - c.timestamp < c.ttl then (d, c, false)
      else rosaProbe c now probe
  | Option.none => rosaProbe c now probe

/-! ## OCP hub connection cache (app.py lines 57-61, 2409-2693) -/

/-- Outcome of reading and parsing `vars/user_vars.yml`: missing file,
parsed values of the three `config.get(..., "")` lookups (pre-`strip`),
a `yaml.YAMLError`, or any other raised exception. -/
inductive ConfigOutcome : Type
  | missing
  | parsed (api_url user password : String)
  | yamlError (emsg : String)
  | readRaised (emsg : String)
deriving DecidableEq

/-- External outcomes consumed by one `get_ocp_connection_status` call:
the config read, the `oc login` run, and the three cluster-info probes. -/
structure OcpEnv : Type where
  config : ConfigOutcome
  login : ProcResult
  versionRes : ProcResult
  whoamiRes : ProcResult
  clusterRes : ProcResult
deriving DecidableEq

/-- The response dict of `GET /api/ocp/connection-status` (claim-relevant
fields; keys absent in a branch are defaulted). -/
structure OcpResp : Type where
  connected : Bool
  status : String
  message : String
  suggestion : String := ""
  api_url : Option String := Option.none
  username : Option String := Option.none
  error_details : Option String := Option.none
  cluster_info : List (String × String) := []
  detected_user : Option String := Option.none
  detected_url : Option String := Option.none
  connection_test_output : String := ""
  configured_url : Option String := Option.none
deriving DecidableEq

/-- `ocp_status_cache = {"data": None, "timestamp": 0, "ttl": 60}`. -/
structure OcpCache : Type where
  data : Option OcpResp
  timestamp : Int
  ttl : Int
deriving DecidableEq

def ocpCacheInit : OcpCache := ⟨Option.none, 0, 60⟩

/-- The placeholder credential values checked at lines 2446-2451. -/
def placeholderValues : List String :=
  ["your-username", "your-password",
   "https://api.your-cluster.example.com:6443",
   "api.your-cluster.example.com"]

/-- `is_placeholder` (lines 2453-2458). -/
def isPlaceholder (url user password : String) : Bool :=
  placeholderValues.contains user || placeholderValues.contains password ||
  placeholderValues.contains url || containsSub url "your-cluster.example.com"

/-- The multi-paragraph placeholder-credentials suggestion (lines
2465-2476), abbreviated to its interpolated data (prose elided; no claim
inspects it). -/
def placeholderSuggestion (user url : String) : String :=
  "CREDENTIAL CONFIGURATION REQUIRED: OCP_HUB_CLUSTER_USER: " ++ user ++
  ", OCP_HUB_API_URL: " ++ url

/-- The multi-paragraph invalid-credentials suggestion (lines 2583-2611),
abbreviated to its interpolated data (prose elided; no claim inspects it). -/
def invalidCredsSuggestion (url user errMsg : String) : String :=
  "AUTHENTICATION FAILED: Cluster: " ++ url ++ ", Username: " ++ user ++
  ", Original Error: " ++ errMsg

/-- Exceptional exits of the inner cluster-info block (lines 2520-2535):
a `TimeoutExpired` is caught there (`connected_limited`); anything else
escapes to the outer handlers. -/
inductive InfoErr : Type
  | limited
  | nf
  | raisedE (m : String)
deriving DecidableEq

/-- One inner `subprocess.run` contribution to `cluster_info`. -/
def infoStep (r : ProcResult) (key : String) :
    Except InfoErr (List (String × String)) :=
  match r with
  | .exited rc o _ => .ok (if rc == 0 then [(key, pyStrip o)] else [])
  | .timedOut _ => .error .limited
  | .notFound => .error .nf
  | .raised m => .error (.raisedE m)

/-- `cluster_info` built from the three info probes (lines 2520-2542). -/
def infoGather (env : OcpEnv) : Except InfoErr (List (String × String)) :=
  match infoStep env.versionRes "version" with
  | .error e => .error e
  | .ok a =>
  match infoStep env.whoamiRes "current_user" with
  | .error e => .error e
  | .ok b =>
  match infoStep env.clusterRes "cluster_info" with
  | .error e => .error e
  | .ok c => .ok (a ++ b ++ c)

/-- The `oc_not_found` response of the outer `except FileNotFoundError`. -/
def ocpNotFoundResp : OcpResp :=
  { connected := false, status := "oc_not_found",
    message := "OpenShift CLI (oc) not found",
    suggestion := "Install the OpenShift CLI (oc) command" }

/-- The generic outer `except Exception` response. -/
def ocpGenericErrorResp (m : String) : OcpResp :=
  { connected := false, status := "error",
    message := "Error testing OCP connection: " ++ m,
    suggestion := "Check configuration and try again" }

/-- The outer `except subprocess.TimeoutExpired` response (lines
2646-2669); it re-reads the config file for the API URL. -/
def ocpTimeoutResp (cfg : ConfigOutcome) : OcpResp :=
  { connected := false, status := "timeout",
    message := "Connection test timed out after 30 seconds",
    suggestion := "Check network connectivity and API URL",
    api_url :=
      match cfg with
      | .parsed u _ _ => some (pyStrip u)
      | _ => Option.none }

/-- The login-failure classification and cache clear (lines 2571-2644). -/
def ocpLoginFailed (c : OcpCache) (url user : String) (out err : String) :
    OcpResp × OcpCache × Bool :=
  let errMsg := if pyStrip err != "" then pyStrip err else pyStrip out
  let lower := pyLower errMsg
  let (st, msg, sugg) :=
    if containsSub lower "unauthorized" ||
       containsSub lower "invalid username or password" ||
       containsSub errMsg "401" || containsSub lower "login failed" then
      ("invalid_credentials", "❌ Authentication Failed (401 Unauthorized)",
       invalidCredsSuggestion url user errMsg)
    else if containsSub lower "network" || containsSub lower "connection" ||
            containsSub lower "timeout" then
      ("connection_failed", "Network connection failed",
       "Check your network connection and OCP_HUB_API_URL")
    else if containsSub lower "certificate" || containsSub lower "tls" then
      ("tls_error", "TLS/Certificate error",
       "Check the API URL or certificate configuration")
    else
      ("login_failed", "Login failed: " ++ errMsg,
       "Check your OCP Hub configuration and network connectivity")
  ({ connected := false, status := st, message := msg, suggestion := sugg,
     api_url := some url, username := some user, error_details := some errMsg },
   -- lines 2640-2642: "Clear cache on failure"
   { c with data := Option.none, timestamp := 0 }, true)

/-- The cache-miss body of `get_ocp_connection_status` (lines 2422-2693). -/
def ocpProbe (c : OcpCache) (now : Int) (env : OcpEnv) :
    OcpResp × OcpCache × Bool :=
  match env.config with
  | .missing =>
      ({ connected := false, status := "config_missing",
         message := "vars/user_vars.yml file not found",
         suggestion := "Create and configure vars/user_vars.yml with OCP Hub credentials" },
       c, true)
  | .yamlError m =>
      ({ connected := false, status := "invalid_yaml",
         message := "Invalid YAML format in vars/user_vars.yml: " ++ m,
         suggestion := "Fix the YAML syntax errors in vars/user_vars.yml" },
       c, true)
  | .readRaised m => (ocpGenericErrorResp m, c, true)
  | .parsed u0 us0 pw0 =>
    let url := pyStrip u0
    let user := pyStrip us0
    let pw := pyStrip pw0
    if isPlaceholder url user pw then
      ({ connected := false, status := "placeholder_credentials",
         message := "⚠️ OCP Hub credentials contain placeholder values",
         suggestion := placeholderSuggestion user url,
         detected_user := some user, detected_url := some url },
       c, true)
    else if url == "" then
      ({ connected := false, status := "missing_api_url",
         message := "OCP_HUB_API_URL not configured",
         suggestion := "Configure OCP_HUB_API_URL in vars/user_vars.yml" },
       c, true)
    else if user == "" || pw == "" then
      ({ connected := false, status := "missing_credentials",
         message := "OCP Hub username or password not configured",
         suggestion := "Configure OCP_HUB_CLUSTER_USER and OCP_HUB_CLUSTER_PASSWORD in vars/user_vars.yml",
         configured_url := some url },
       c, true)
    else
      match env.login with
      | .timedOut _ => (ocpTimeoutResp env.config, c, true)
      | .notFound => (ocpNotFoundResp, c, true)
      | .raised m => (ocpGenericErrorResp m, c, true)
      | .exited rc out err =>
        if rc == 0 then
          match infoGather env with
          | .ok ci =>
              let resp : OcpResp :=
                { connected := true, status := "connected",
                  message := "Successfully connected to OpenShift Hub cluster",
                  api_url := some url, username := some user,
                  cluster_info := ci,
                  connection_test_output := pyStrip out }
              (resp, { c with data := some resp, timestamp := now }, true)
          | .error .limited =>
              -- inner `except subprocess.TimeoutExpired`: success response
              -- WITHOUT storing anything in the cache (lines 2561-2569)
              ({ connected := true, status := "connected_limited",
                 message := "Connected to OpenShift, but cluster info retrieval timed out",
                 api_url := some url, username := some user },
               c, true)
          | .error .nf => (ocpNotFoundResp, c, true)
          | .error (.raisedE m) => (ocpGenericErrorResp m, c, true)
        else ocpLoginFailed c url user out err

/-- `GET /api/ocp/connection-status` (lines 2409-2693). -/
def get_ocp_connection_status (c : OcpCache) (now : Int) (env : OcpEnv) :
    OcpResp × OcpCache × Bool :=
  match c.data with
  | some d =>
      if now - c.timestamp < c.ttl then (d, c, false)
      else ocpProbe c now env
  | Option.none => ocpProbe c now env

/-! ## Active-resource status normalization (app.py lines 5587-5853) -/

/-- One entry of a resource's `status.conditions` list (the `type` and
`status` keys, with the dict-lookup defaults applied). -/
structure Condition : Type where
  type : String := ""
  status : String := ""
deriving DecidableEq

/-- The claim-relevant part of one resource item's `status` block. -/
structure ResStatus : Type where
  ready : Option PyVal := Option.none
  phase : Option String := Option.none
  conditions : List Condition := []
deriving DecidableEq

/-- The resource kinds inspected by `_get_active_resources_impl`. -/
inductive RKind : Type
  | capiClusters
  | rosaCluster
  | rosaControlPlane
  | rosaNetwork
  | rosaRoleConfig
deriving DecidableEq

/-- `status.get("ready") == True or status.get("ready") == "true"`
(Python `1 == True`, so an integer 1 also compares equal). -/
def readyFieldTrue : Option PyVal → Bool
  | some (.bool b) => b
  | some (.str s) => s == "true"
  | some (.int n) => n == 1
  | _ => false

/-- The condition scan shared by the four ROSA kinds: first condition with
`status == "True"` and a type in the kind's alias list wins. -/
def readyCondScan (aliases : List String) (cs : List Condition) : Bool :=
  cs.any (fun c => c.status == "True" && aliases.contains c.type)

/-- Accepted "ready" condition-type aliases per kind (from the inline
`or` chains at lines 5668-5672, 5727-5731, 5781-5785, 5835-5839). -/
def readyAliases : RKind → List String
  | .capiClusters => []
  | .rosaCluster => ["Ready", "ROSAClusterReady", "RosaClusterReady"]
  | .rosaControlPlane => ["Ready", "ROSAControlPlaneReady", "RosaControlPlaneReady"]
  | .rosaNetwork => ["ROSANetworkReady", "RosaNetworkReady", "Ready"]
  | .rosaRoleConfig => ["ROSARoleConfigReady", "RosaRoleConfigReady", "Ready"]

/-- The `status` string written per kind into the resources table:
CAPI clusters from `status.phase` (lines 5618-5622); ROSACluster /
RosaControlPlane from the direct `ready` field then the condition scan,
defaulting "Provisioning"; RosaNetwork / RosaRoleConfig from the
condition scan alone, defaulting "Configuring". -/
def resourceStatus : RKind → ResStatus → String
  | .capiClusters, st =>
      if st.phase == some "Provisioned" then "Ready" else st.phase.getD "Active"
  | .rosaCluster, st =>
      if readyFieldTrue st.ready ||
         readyCondScan (readyAliases .rosaCluster) st.conditions then "Ready"
      else "Provisioning"
  | .rosaControlPlane, st =>
      if readyFieldTrue st.ready ||
         readyCondScan (readyAliases .rosaControlPlane) st.conditions then "Ready"
      else "Provisioning"
  | .rosaNetwork, st =>
      if readyCondScan (readyAliases .rosaNetwork) st.conditions then "Ready"
      else "Configuring"
  | .rosaRoleConfig, st =>
      if readyCondScan (readyAliases .rosaRoleConfig) st.conditions then "Ready"
      else "Configuring"

/-! ## Small derived predicates used by the theorems -/

/-- Whether a log entry is the "Applying document k" line for position `k`. -/
def LogEntry.isApplyingIdx (k : Nat) : LogEntry → Bool
  | .applying i _ _ _ => i == k
  | _ => false

/-- A `rosa whoami` outcome that does not take the success branch. -/
def rosaFails : ProcResult → Bool
  | .exited rc _ _ => rc != 0
  | _ => true

/-! # Theorems -/

/-- Setting a job id and reading it back yields the record just written. -/
theorem jobsGet_jobsSet (m : JobMap) (id : String) (j : Job) :
    jobsGet (jobsSet m id j) id = some j := by
  induction m with
  | nil => simp [jobsGet, jobsSet, List.find?]
  | cons p rest ih =>
      obtain ⟨k, v⟩ := p
      by_cases h : k == id
      · simp [jobsGet, jobsSet, h, List.find?]
      · simp only [jobsSet, h]
        simpa [jobsGet, List.find?, h] using ih

/-- Claim C8: every job id returned by a job-creation endpoint
(`create_cluster`, `apply_provisioning_yaml`) maps, before any background
execution has run, to a record with status `pending`, progress 0 and empty
logs, and the lookup returns it rather than a 404. -/
theorem C8_fresh_job_pending (m : JobMap) (id id' : String) (now now' : Nat) :
    get_job_status (jobsSet m id (newClusterJob now)) id =
      .ok (newClusterJob now) ∧
    (newClusterJob now).status = .pending ∧
    (newClusterJob now).progress = 0 ∧
    (newClusterJob now).logs = [] ∧
    get_job_status (jobsSet m id' (newApplyYamlJob now')) id' =
      .ok (newApplyYamlJob now') ∧
    (newApplyYamlJob now').status = .pending ∧
    (newApplyYamlJob now').progress = 0 ∧
    (newApplyYamlJob now').logs = [] := by
  refine ⟨?_, rfl, rfl, rfl, ?_, rfl, rfl, rfl⟩ <;>
    simp [get_job_status, jobsGet_jobsSet]

/-- Claim C9: `GET /api/jobs` returns all jobs (a permutation of the
registry) sorted by normalized `created_at` descending, where a missing or
unparseable `created_at` normalizes to the minimum timestamp, which every
normalized value dominates (so such jobs sort last). -/
theorem C9_list_jobs_sorted_desc (m : JobMap) :
    (list_jobs m).Perm m ∧
    List.Sorted jobNewerEq (list_jobs m) ∧
    normalize_timestamp Option.none = datetimeMin ∧
    normalize_timestamp (some .tsNone) = datetimeMin ∧
    normalize_timestamp (some .tsNumberBad) = datetimeMin ∧
    normalize_timestamp (some .tsStrEmptyOrZero) = datetimeMin ∧
    normalize_timestamp (some .tsStrBad) = datetimeMin ∧
    (∀ v : Option TsVal, datetimeMin ≤ normalize_timestamp v) := by
  refine ⟨List.perm_insertionSort _ m, List.sorted_insertionSort _ m,
    rfl, rfl, rfl, rfl, rfl, ?_⟩
  intro v
  exact Nat.zero_le _

/-- Claim C10: `create_cluster` hands the background task a dict keyed
`cluster_name` (with no `name` key), while `run_ansible_playbook` reads
`config["name"]`; the `KeyError` lands in the generic exception handler, so
every such job ends `failed` with message "Error: 'name'" and the external
process is never launched (the outcome is independent of the process
oracle and of the clock). -/
theorem C10_create_cluster_key_mismatch (c : ClusterConfig)
    (proc proc' : List String → ProcResult) (now now' : Nat) (j : Job) :
    (create_cluster_extra_vars c).get? "name" = Option.none ∧
    (create_cluster_extra_vars c).get? "cluster_name" = some (.str c.name) ∧
    (run_ansible_playbook "create_rosa_hcp_automated.yaml"
        (create_cluster_extra_vars c) proc now j).status = .failed ∧
    (run_ansible_playbook "create_rosa_hcp_automated.yaml"
        (create_cluster_extra_vars c) proc now j).message =
      "Error: \x27name\x27" ∧
    run_ansible_playbook "create_rosa_hcp_automated.yaml"
        (create_cluster_extra_vars c) proc now j =
      run_ansible_playbook "create_rosa_hcp_automated.yaml"
        (create_cluster_extra_vars c) proc' now' j := by
  refine ⟨?_, ?_, ?_, ?_, ?_⟩ <;>
    simp [create_cluster_extra_vars, PyDict.get?, List.find?,
      run_ansible_playbook, buildPlaybookCmd, PyDict.item, Except.bind]

/-- Claim C6 counterexample: for CAPI cluster rows the condition list is
ignored — an item whose conditions contain `{type: "Ready", status:
"True"}` but which has no `phase` is normalized to "Active", not "Ready",
so the claim's "for every resource kind" quantification fails. -/
theorem C6_capi_conditions_ignored :
    resourceStatus .capiClusters
      { ready := Option.none, phase := Option.none,
        conditions := [{ type := "Ready", status := "True" }] } = "Active" ∧
    ("Active" : String) ≠ "Ready" := by
  exact ⟨rfl, by decide⟩

/-- Claim C6 (amended): for the four condition-scanning kinds
(ROSACluster, RosaControlPlane, RosaNetwork, RosaRoleConfig) an input whose
condition list contains `{type: "Ready", status: "True"}` normalizes to
"Ready", and an input with an empty condition list and no direct `ready`
field normalizes to the kind's default label ("Provisioning" for the first
two, "Configuring" for the last two); CAPI cluster rows instead derive
their status from `status.phase` alone. -/
theorem C6_condition_normalization (st : ResStatus) :
    (({ type := "Ready", status := "True" } : Condition) ∈ st.conditions →
      resourceStatus .rosaCluster st = "Ready" ∧
      resourceStatus .rosaControlPlane st = "Ready" ∧
      resourceStatus .rosaNetwork st = "Ready" ∧
      resourceStatus .rosaRoleConfig st = "Ready") ∧
    (st.ready = Option.none → st.conditions = [] →
      resourceStatus .rosaCluster st = "Provisioning" ∧
      resourceStatus .rosaControlPlane st = "Provisioning" ∧
      resourceStatus .rosaNetwork st = "Configuring" ∧
      resourceStatus .rosaRoleConfig st = "Configuring") := by
  constructor
  · intro hmem
    have h₁ : readyCondScan (readyAliases .rosaCluster) st.conditions = true :=
      List.any_eq_true.mpr ⟨_, hmem, by decide⟩
    have h₂ : readyCondScan (readyAliases .rosaControlPlane) st.conditions = true :=
      List.any_eq_true.mpr ⟨_, hmem, by decide⟩
    have h₃ : readyCondScan (readyAliases .rosaNetwork) st.conditions = true :=
      List.any_eq_true.mpr ⟨_, hmem, by decide⟩
    have h₄ : readyCondScan (readyAliases .rosaRoleConfig) st.conditions = true :=
      List.any_eq_true.mpr ⟨_, hmem, by decide⟩
    refine ⟨?_, ?_, ?_, ?_⟩ <;>
      simp [resourceStatus, h₁, h₂, h₃, h₄]
  · intro hready hconds
    refine ⟨?_, ?_, ?_, ?_⟩ <;>
      simp [resourceStatus, readyCondScan, hready, hconds, readyFieldTrue]

/-- Claim C6 witness: the amended theorem applied at concrete inputs. -/
theorem C6_condition_normalization_witness :
    resourceStatus .rosaCluster
      { ready := Option.none, phase := Option.none,
        conditions := [{ type := "Ready", status := "True" }] } = "Ready" ∧
    resourceStatus .rosaNetwork
      { ready := Option.none, phase := Option.none, conditions := [] } =
      "Configuring" :=
  ⟨((C6_condition_normalization _).1 (by decide)).1,
   ((C6_condition_normalization _).2 rfl rfl).2.2.1⟩

/-- Any terminal snapshot ends the websocket polling loop: observations
after the first terminal poll contribute no events. -/
theorem wsLoop_stops_at_terminal (id : String) (t₁ : List (Option Job))
    (o : Option Job) (t₂ : List (Option Job)) (last : Int) (tick : Nat)
    (hterm : wsTerminal (wsSnap o).1 = true) :
    wsLoop id (t₁ ++ o :: t₂) last tick = wsLoop id (t₁ ++ [o]) last tick := by
  induction t₁ generalizing last tick with
  | nil => simp [wsLoop, hterm]
  | cons o' rest ih =>
      simp only [List.cons_append, wsLoop]
      by_cases hterm' : wsTerminal (wsSnap o').1 = true
      · rw [if_pos hterm', if_pos hterm']
      · rw [if_neg hterm', if_neg hterm']
        congr 1
        exact ih _ _

/-- Consecutive events pushed by the loop always differ in `progress`, and
the first pushed event differs from the incoming `last_progress`. -/
theorem wsLoop_progress_chain (id : String) (trace : List (Option Job))
    (last : Int) (tick : Nat) :
    List.Chain' (fun e₁ e₂ : WsEvent => e₁.progress ≠ e₂.progress)
      (wsLoop id trace last tick) ∧
    (∀ e, (wsLoop id trace last tick).head? = some e → e.progress ≠ last) := by
  induction trace generalizing last tick with
  | nil => simp [wsLoop]
  | cons o rest ih =>
      simp only [wsLoop]
      by_cases hpr : (wsSnap o).2.1 != last
      · simp only [hpr, if_true]
        by_cases hterm : wsTerminal (wsSnap o).1
        · simp only [hterm, if_true]
          refine ⟨by simp, ?_⟩
          intro e he
          simp only [List.head?_cons, Option.some.injEq] at he
          subst he
          simpa using hpr
        · simp only [hterm, Bool.false_eq_true, if_false, List.singleton_append]
          refine ⟨List.chain'_cons'.mpr ⟨?_, (ih _ _).1⟩, ?_⟩
          · intro e he
            have := (ih ((wsSnap o).2.1) (tick + 1)).2 e he
            exact fun h => this h.symm
          · intro e he
            simp only [List.head?_cons, Option.some.injEq] at he
            subst he
            simpa using hpr
      · simp only [hpr, Bool.false_eq_true, if_false]
        by_cases hterm : wsTerminal (wsSnap o).1
        · simp [hterm]
        · simp only [hterm, Bool.false_eq_true, if_false, List.nil_append]
          exact ih _ _

/-- Claim C7: the per-job WebSocket endpoint closes at once with code 1003
and pushes nothing when the job id is unknown; otherwise an event is pushed
exactly on progress changes (so consecutive events differ in progress), and
the loop never produces events from polls after the first terminal
snapshot. -/
theorem C7_websocket_events (m : JobMap) (id : String)
    (trace : List (Option Job)) :
    (jobsGet m id = Option.none →
      websocket_job_updates m id trace = ⟨[], some 1003⟩) ∧
    List.Chain' (fun e₁ e₂ : WsEvent => e₁.progress ≠ e₂.progress)
      (websocket_job_updates m id trace).events ∧
    (∀ (t₁ : List (Option Job)) (o : Option Job) (t₂ : List (Option Job)),
      wsTerminal (wsSnap o).1 = true →
      wsLoop id (t₁ ++ o :: t₂) (-1) 0 = wsLoop id (t₁ ++ [o]) (-1) 0) := by
  refine ⟨?_, ?_, ?_⟩
  · intro h
    simp [websocket_job_updates, h]
  · by_cases h : (jobsGet m id).isSome
    · simpa [websocket_job_updates, h] using
        (wsLoop_progress_chain id trace (-1) 0).1
    · simp [websocket_job_updates, h]
  · intro t₁ o t₂ hterm
    exact wsLoop_stops_at_terminal id t₁ o t₂ (-1) 0 hterm

/-- Claim C7 witness: the theorem applied to an empty registry (close code
1003, no events) and to a concrete terminal-truncation instance. -/
theorem C7_websocket_events_witness :
    websocket_job_updates [] "job-1" [] = ⟨[], some 1003⟩ ∧
    wsLoop "job-1"
        ([some (newClusterJob 0)] ++
          some ({ newClusterJob 0 with status := .failed } : Job) ::
            [some (newClusterJob 0)]) (-1) 0 =
      wsLoop "job-1" ([some (newClusterJob 0)] ++
          [some { newClusterJob 0 with status := .failed }]) (-1) 0 :=
  ⟨(C7_websocket_events [] "job-1" []).1 rfl,
   (C7_websocket_events [] "job-1" []).2.2 [some (newClusterJob 0)]
     (some { newClusterJob 0 with status := .failed })
     [some (newClusterJob 0)] (by decide)⟩

/-- Claim C2 counterexample: a stale cached OCP success is erased by a
failing `oc login` probe — after the failing call the cache entry is
`(None, 0)`, not the value and timestamp it held before. -/
theorem C2_ocp_login_failure_clears_cache :
    (get_ocp_connection_status
        ⟨some { connected := true, status := "connected",
                message := "Successfully connected to OpenShift Hub cluster" },
         100, 60⟩
        200
        ⟨.parsed "https://api.hub.example.com:6443" "admin" "pw",
         .exited 1 "" "boom",
         .exited 0 "" "", .exited 0 "" "", .exited 0 "" ""⟩).2.1 =
      ⟨Option.none, 0, 60⟩ ∧
    (⟨Option.none, 0, 60⟩ : OcpCache) ≠
      ⟨some { connected := true, status := "connected",
              message := "Successfully connected to OpenShift Hub cluster" },
       100, 60⟩ := by
  constructor
  · decide
  · decide

/-- Claim C2 (amended): a failing probe never stores its failing response.
The ROSA cache is left exactly unchanged by every failing call; the OCP
cache is left unchanged on every failure path except a non-zero `oc login`
exit, which resets the entry to `(None, 0)` (erasing any prior cached
success) while keeping its ttl. -/
theorem C2_failing_probe_cache (c : RosaCache) (now : Int)
    (probe : ProcResult) (co : OcpCache) (nowo : Int) (env : OcpEnv) :
    (rosaFails probe = true → (get_rosa_status c now probe).2.1 = c) ∧
    ((get_ocp_connection_status co nowo env).1.connected = false →
      (get_ocp_connection_status co nowo env).2.1 = co ∨
      (get_ocp_connection_status co nowo env).2.1 =
        ⟨Option.none, 0, co.ttl⟩) := by
  constructor
  · intro hfail
    unfold get_rosa_status
    have hprobe : (rosaProbe c now probe).2.1 = c := by
      cases probe with
      | exited rc out err =>
          simp only [rosaFails, bne_iff_ne, ne_eq] at hfail
          simp [rosaProbe, hfail]
      | timedOut e => rfl
      | notFound => rfl
      | raised e => rfl
    cases hc : c.data with
    | some d =>
        by_cases hfresh : now - c.timestamp < c.ttl
        · simp [hfresh]
        · simp [hfresh, hprobe]
    | none => simp [hprobe]
  · have hp : ∀ envp, (ocpProbe co nowo envp).1.connected = false →
        (ocpProbe co nowo envp).2.1 = co ∨
        (ocpProbe co nowo envp).2.1 = ⟨Option.none, 0, co.ttl⟩ := by
      intro envp hconn
      cases hcfg : envp.config with
      | missing => left; simp [ocpProbe, hcfg]
      | yamlError m => left; simp [ocpProbe, hcfg]
      | readRaised m => left; simp [ocpProbe, hcfg]
      | parsed u us pw =>
        simp only [ocpProbe, hcfg] at hconn ⊢
        by_cases h1 : isPlaceholder (pyStrip u) (pyStrip us) (pyStrip pw) = true
        · left; simp [h1]
        · simp only [h1, Bool.false_eq_true, if_false] at hconn ⊢
          by_cases h2 : (pyStrip u == "") = true
          · left; simp [h2]
          · simp only [h2, Bool.false_eq_true, if_false] at hconn ⊢
            by_cases h3 : (pyStrip us == "" || pyStrip pw == "") = true
            · left; simp [h3]
            · simp only [h3, Bool.false_eq_true, if_false] at hconn ⊢
              cases hlog : envp.login with
              | timedOut e => left; simp [hlog]
              | notFound => left; simp [hlog]
              | raised e => left; simp [hlog]
              | exited rc out err =>
                simp only [hlog] at hconn ⊢
                by_cases h4 : (rc == 0) = true
                · simp only [h4, if_true] at hconn ⊢
                  cases hinfo : infoGather envp with
                  | ok ci => rw [hinfo] at hconn; simp at hconn
                  | error e =>
                    cases e with
                    | limited => rw [hinfo] at hconn; simp at hconn
                    | nf => left; simp [hinfo]
                    | raisedE m => left; simp [hinfo]
                · simp only [h4, Bool.false_eq_true, if_false] at hconn ⊢
                  right
                  rfl
    intro hconn
    unfold get_ocp_connection_status at hconn ⊢
    revert hconn
    cases hc : co.data with
    | some d =>
        intro hconn
        by_cases hfresh : nowo - co.timestamp < co.ttl
        · left; simp [hfresh]
        · simp only [hfresh, ite_false] at hconn ⊢
          exact hp env hconn
    | none =>
        intro hconn
        exact hp env hconn

/-- Claim C2 witness: the amended theorem applied to a concrete failing
ROSA probe (timeout) and a concrete failing OCP call (missing config). -/
theorem C2_failing_probe_cache_witness :
    (get_rosa_status rosaCacheInit 5 (.timedOut "t")).2.1 = rosaCacheInit ∧
    ((get_ocp_connection_status ocpCacheInit 0
        ⟨.missing, .exited 0 "" "", .exited 0 "" "", .exited 0 "" "",
         .exited 0 "" ""⟩).2.1 = ocpCacheInit ∨
     (get_ocp_connection_status ocpCacheInit 0
        ⟨.missing, .exited 0 "" "", .exited 0 "" "", .exited 0 "" "",
         .exited 0 "" ""⟩).2.1 = ⟨Option.none, 0, ocpCacheInit.ttl⟩) :=
  ⟨(C2_failing_probe_cache rosaCacheInit 5 (.timedOut "t") ocpCacheInit 0
      ⟨.missing, .exited 0 "" "", .exited 0 "" "", .exited 0 "" "",
       .exited 0 "" ""⟩).1 (by decide),
   (C2_failing_probe_cache rosaCacheInit 5 (.timedOut "t") ocpCacheInit 0
      ⟨.missing, .exited 0 "" "", .exited 0 "" "", .exited 0 "" "",
       .exited 0 "" ""⟩).2 (by decide)⟩

/-- Claim C5 counterexample: a first OCP call that succeeds (login ok,
`connected = True`) but hits the info-gathering timeout caches nothing, so
a second call one second later — well within the 60-second ttl — invokes
the probe again: the probe does not run exactly once across the two calls. -/
theorem C5_ocp_limited_success_not_cached :
    (get_ocp_connection_status ocpCacheInit 1000
        ⟨.parsed "https://api.hub.example.com:6443" "admin" "pw",
         .exited 0 "Login successful." "", .timedOut "t",
         .exited 0 "" "", .exited 0 "" ""⟩).1.connected = true ∧
    (get_ocp_connection_status ocpCacheInit 1000
        ⟨.parsed "https://api.hub.example.com:6443" "admin" "pw",
         .exited 0 "Login successful." "", .timedOut "t",
         .exited 0 "" "", .exited 0 "" ""⟩).2.2 = true ∧
    (get_ocp_connection_status ocpCacheInit 1000
        ⟨.parsed "https://api.hub.example.com:6443" "admin" "pw",
         .exited 0 "Login successful." "", .timedOut "t",
         .exited 0 "" "", .exited 0 "" ""⟩).2.1 = ocpCacheInit ∧
    (get_ocp_connection_status
        ((get_ocp_connection_status ocpCacheInit 1000
            ⟨.parsed "https://api.hub.example.com:6443" "admin" "pw",
             .exited 0 "Login successful." "", .timedOut "t",
             .exited 0 "" "", .exited 0 "" ""⟩).2.1) 1001
        ⟨.parsed "https://api.hub.example.com:6443" "admin" "pw",
         .exited 0 "Login successful." "", .timedOut "t",
         .exited 0 "" "", .exited 0 "" ""⟩).2.2 = true := by
  refine ⟨?_, ?_, ?_, ?_⟩ <;> decide

/-- The cache-miss body of the ROSA endpoint always runs the probe. -/
theorem rosaProbe_flag (c : RosaCache) (now : Int) (p : ProcResult) :
    (rosaProbe c now p).2.2 = true := by
  cases p with
  | exited rc out err =>
      by_cases h : (rc == 0) = true <;> simp [rosaProbe, h]
  | timedOut e => rfl
  | notFound => rfl
  | raised e => rfl

/-- The cache-miss body of the OCP endpoint always runs the probe. -/
theorem ocpProbe_flag (c : OcpCache) (now : Int) (env : OcpEnv) :
    (ocpProbe c now env).2.2 = true := by
  cases hcfg : env.config with
  | missing => simp [ocpProbe, hcfg]
  | yamlError m => simp [ocpProbe, hcfg]
  | readRaised m => simp [ocpProbe, hcfg]
  | parsed u us pw =>
      simp only [ocpProbe, hcfg]
      split_ifs <;> try rfl
      cases hlog : env.login with
      | timedOut e => simp [hlog]
      | notFound => simp [hlog]
      | raised e => simp [hlog]
      | exited rc out err =>
          simp only [hlog]
          by_cases hrc : (rc == 0) = true
          · simp only [hrc, if_true]
            cases hinfo : infoGather env with
            | ok ci => simp [hinfo]
            | error e => cases e <;> simp [hinfo]
          · simp only [hrc, Bool.false_eq_true, if_false]
            rfl

/-- Claim C5 (amended): for both caches, a fresh cached entry is served
without running the probe, a stale-or-empty cache runs it, and the probe
result is cached — with the new timestamp — exactly on the full success
paths (ROSA `rosa whoami` exit 0; OCP full `connected` path).  The OCP
degraded success `connected_limited` (login ok, info probe timeout)
returns `connected = True` without caching, so the next call probes again. -/
theorem C5_cache_ttl :
    (∀ (c : RosaCache) (now : Int) (probe : ProcResult) (r : RosaResp),
      c.data = some r → now - c.timestamp < c.ttl →
      get_rosa_status c now probe = (r, c, false)) ∧
    (∀ (c : RosaCache) (now : Int) (probe : ProcResult),
      c.ttl ≤ now - c.timestamp →
      (get_rosa_status c now probe).2.2 = true) ∧
    (∀ (c : RosaCache) (now : Int) (out err : String),
      (get_rosa_status c now (.exited 0 out err)).2.2 = true →
      (get_rosa_status c now (.exited 0 out err)).2.1.data =
        some (get_rosa_status c now (.exited 0 out err)).1 ∧
      (get_rosa_status c now (.exited 0 out err)).2.1.timestamp = now ∧
      (get_rosa_status c now (.exited 0 out err)).2.1.ttl = c.ttl) ∧
    (∀ (c : OcpCache) (now : Int) (env : OcpEnv) (r : OcpResp),
      c.data = some r → now - c.timestamp < c.ttl →
      get_ocp_connection_status c now env = (r, c, false)) ∧
    (∀ (c : OcpCache) (now : Int) (env : OcpEnv),
      c.ttl ≤ now - c.timestamp →
      (get_ocp_connection_status c now env).2.2 = true) ∧
    (∀ (c : OcpCache) (now : Int) (u us pw out err : String)
       (v1 v2 v3 : Int) (o1 e1 o2 e2 o3 e3 : String),
      isPlaceholder (pyStrip u) (pyStrip us) (pyStrip pw) = false →
      (pyStrip u == "") = false →
      (pyStrip us == "") = false →
      (pyStrip pw == "") = false →
      (get_ocp_connection_status c now
          ⟨.parsed u us pw, .exited 0 out err, .exited v1 o1 e1,
           .exited v2 o2 e2, .exited v3 o3 e3⟩).2.2 = true →
      (get_ocp_connection_status c now
          ⟨.parsed u us pw, .exited 0 out err, .exited v1 o1 e1,
           .exited v2 o2 e2, .exited v3 o3 e3⟩).2.1.data =
        some (get_ocp_connection_status c now
          ⟨.parsed u us pw, .exited 0 out err, .exited v1 o1 e1,
           .exited v2 o2 e2, .exited v3 o3 e3⟩).1 ∧
      (get_ocp_connection_status c now
          ⟨.parsed u us pw, .exited 0 out err, .exited v1 o1 e1,
           .exited v2 o2 e2, .exited v3 o3 e3⟩).2.1.timestamp = now ∧
      (get_ocp_connection_status c now
          ⟨.parsed u us pw, .exited 0 out err, .exited v1 o1 e1,
           .exited v2 o2 e2, .exited v3 o3 e3⟩).1.connected = true) := by
  refine ⟨?_, ?_, ?_, ?_, ?_, ?_⟩
  · intro c now probe r hdata hfresh
    unfold get_rosa_status
    rw [hdata]
    simp [hfresh]
  · intro c now probe hstale
    unfold get_rosa_status
    cases hdata : c.data with
    | some d =>
        simp only [not_lt.mpr hstale, ite_false]
        exact rosaProbe_flag c now probe
    | none => exact rosaProbe_flag c now probe
  · intro c now out err hflag
    unfold get_rosa_status at hflag ⊢
    revert hflag
    cases hdata : c.data with
    | some d =>
        intro hflag
        by_cases hfresh : now - c.timestamp < c.ttl
        · simp [hfresh] at hflag
        · simp only [hfresh, ite_false] at hflag ⊢
          simp [rosaProbe]
    | none =>
        intro hflag
        simp [rosaProbe]
  · intro c now env r hdata hfresh
    unfold get_ocp_connection_status
    rw [hdata]
    simp [hfresh]
  · intro c now env hstale
    unfold get_ocp_connection_status
    cases hdata : c.data with
    | some d =>
        simp only [not_lt.mpr hstale, ite_false]
        exact ocpProbe_flag c now env
    | none => exact ocpProbe_flag c now env
  · intro c now u us pw out err v1 v2 v3 o1 e1 o2 e2 o3 e3
    intro hpl hurl hus hpw hflag
    have hbody : (ocpProbe c now
        ⟨.parsed u us pw, .exited 0 out err, .exited v1 o1 e1,
         .exited v2 o2 e2, .exited v3 o3 e3⟩).2.1.data =
          some (ocpProbe c now
            ⟨.parsed u us pw, .exited 0 out err, .exited v1 o1 e1,
             .exited v2 o2 e2, .exited v3 o3 e3⟩).1 ∧
        (ocpProbe c now
          ⟨.parsed u us pw, .exited 0 out err, .exited v1 o1 e1,
           .exited v2 o2 e2, .exited v3 o3 e3⟩).2.1.timestamp = now ∧
        (ocpProbe c now
          ⟨.parsed u us pw, .exited 0 out err, .exited v1 o1 e1,
           .exited v2 o2 e2, .exited v3 o3 e3⟩).1.connected = true := by
      simp [ocpProbe, hpl, hurl, hus, hpw, infoGather, infoStep, Except.bind]
    unfold get_ocp_connection_status at hflag ⊢
    revert hflag
    cases hdata : c.data with
    | some d =>
        intro hflag
        by_cases hfresh : now - c.timestamp < c.ttl
        · simp [hfresh] at hflag
        · simp only [hfresh, ite_false] at hflag ⊢
          exact hbody
    | none =>
        intro hflag
        exact hbody

/-- Claim C5 witness: the amended theorem applied to a concrete fresh
cache hit and a concrete caching OCP success. -/
theorem C5_cache_ttl_witness :
    get_rosa_status
        ⟨some { authenticated := true, status := "success", message := "m" },
         0, 30⟩ 10 (.timedOut "t") =
      ({ authenticated := true, status := "success", message := "m" },
       ⟨some { authenticated := true, status := "success", message := "m" },
        0, 30⟩, false) ∧
    (get_ocp_connection_status ocpCacheInit 42
        ⟨.parsed "https://api.hub.example.com:6443" "admin" "pw",
         .exited 0 "ok" "", .exited 0 "v" "", .exited 0 "u" "",
         .exited 0 "ci" ""⟩).2.1.timestamp = 42 :=
  ⟨C5_cache_ttl.1 _ 10 (.timedOut "t") _ rfl (by decide),
   (C5_cache_ttl.2.2.2.2.2 ocpCacheInit 42 "https://api.hub.example.com:6443"
      "admin" "pw" "ok" "" 0 0 0 "v" "" "u" "" "ci" ""
      (by decide) (by decide) (by decide) (by decide) (by decide)).2.1⟩

/-- Claim C3 counterexample: `run_ansible_playbook` marks the job failed on
timeout without ever setting `completed_at` — the job is terminal with
`completed_at` still unset. -/
theorem C3_playbook_timeout_no_completed_at :
    (run_ansible_playbook "p.yaml"
        [("name", .str "c"), ("version", .str "v"), ("region", .str "r")]
        (fun _ => .timedOut "t") 7 (newClusterJob 0)).status = .failed ∧
    (run_ansible_playbook "p.yaml"
        [("name", .str "c"), ("version", .str "v"), ("region", .str "r")]
        (fun _ => .timedOut "t") 7 (newClusterJob 0)).completed_at =
      Option.none := by
  constructor <;> decide

/-- Claim C3 (amended): both runners always end in a terminal status
(`completed` or `failed`), and `completed_at` is stamped on every terminal
transition of `run_playbook_background` and on the subprocess-completed
paths of `run_ansible_playbook`; the timeout and generic-exception
branches of `run_ansible_playbook` leave `completed_at` unchanged (so a
job entering them keeps `completed_at = None`). -/
theorem C3_terminal_completed_at (playbook pb2 : String) (config : PyDict)
    (proc : List String → ProcResult) (proc2 : ProcResult) (now : Nat)
    (j : Job) :
    ((run_playbook_background pb2 proc2 now j).status = .completed ∨
     (run_playbook_background pb2 proc2 now j).status = .failed) ∧
    (run_playbook_background pb2 proc2 now j).completed_at = some now ∧
    ((run_ansible_playbook playbook config proc now j).status = .completed ∨
     (run_ansible_playbook playbook config proc now j).status = .failed) ∧
    (∀ rc out err, (buildPlaybookCmd playbook config).isOk = true →
      (run_ansible_playbook playbook config (fun _ => .exited rc out err)
          now j).completed_at = some now) ∧
    (∀ t, (run_ansible_playbook playbook config (fun _ => .timedOut t)
        now j).completed_at = j.completed_at) ∧
    (∀ e, (run_ansible_playbook playbook config (fun _ => .raised e)
        now j).completed_at = j.completed_at) := by
  refine ⟨?_, ?_, ?_, ?_, ?_, ?_⟩
  · cases proc2 with
    | exited rc out err =>
        by_cases h : (rc == 0) = true <;>
          simp [run_playbook_background, h]
    | timedOut e => simp [run_playbook_background]
    | notFound => simp [run_playbook_background]
    | raised e => simp [run_playbook_background]
  · cases proc2 with
    | exited rc out err =>
        by_cases h : (rc == 0) = true <;>
          simp [run_playbook_background, h]
    | timedOut e => simp [run_playbook_background]
    | notFound => simp [run_playbook_background]
    | raised e => simp [run_playbook_background]
  · unfold run_ansible_playbook
    cases hcmd : buildPlaybookCmd playbook config with
    | error e => simp
    | ok cmd =>
        cases hp : proc cmd with
        | exited rc out err =>
            by_cases h : (rc == 0) = true <;> simp [hp, h]
        | timedOut e => simp [hp]
        | notFound => simp [hp]
        | raised e => simp [hp]
  · intro rc out err hok
    unfold run_ansible_playbook
    cases hcmd : buildPlaybookCmd playbook config with
    | error e => rw [hcmd] at hok; simp [Except.isOk, Except.toBool] at hok
    | ok cmd =>
        by_cases h : (rc == 0) = true <;> simp [h]
  · intro t
    unfold run_ansible_playbook
    cases hcmd : buildPlaybookCmd playbook config with
    | error e => simp
    | ok cmd => simp
  · intro e
    unfold run_ansible_playbook
    cases hcmd : buildPlaybookCmd playbook config with
    | error e' => simp
    | ok cmd => simp

/-- Claim C3 witness: the amended theorem applied at concrete runs — a
background-playbook timeout is stamped, while a `run_ansible_playbook`
timeout leaves the fresh job's `completed_at` empty. -/
theorem C3_terminal_completed_at_witness :
    (run_playbook_background "x.yaml" (.timedOut "t") 3
        (newClusterJob 0)).completed_at = some 3 ∧
    (run_ansible_playbook "p.yaml"
        [("name", .str "c"), ("version", .str "v"), ("region", .str "r")]
        (fun _ => .exited 0 "" "") 3 (newClusterJob 0)).completed_at =
      some 3 ∧
    (run_ansible_playbook "p.yaml"
        [("name", .str "c"), ("version", .str "v"), ("region", .str "r")]
        (fun _ => .timedOut "t") 3 (newClusterJob 0)).completed_at =
      (newClusterJob 0).completed_at :=
  ⟨(C3_terminal_completed_at "p.yaml" "x.yaml"
      [("name", .str "c"), ("version", .str "v"), ("region", .str "r")]
      (fun _ => .timedOut "t") (.timedOut "t") 3 (newClusterJob 0)).2.1,
   (C3_terminal_completed_at "p.yaml" "x.yaml"
      [("name", .str "c"), ("version", .str "v"), ("region", .str "r")]
      (fun _ => .timedOut "t") (.timedOut "t") 3
      (newClusterJob 0)).2.2.2.1 0 "" "" (by decide),
   (C3_terminal_completed_at "p.yaml" "x.yaml"
      [("name", .str "c"), ("version", .str "v"), ("region", .str "r")]
      (fun _ => .timedOut "t") (.timedOut "t") 3
      (newClusterJob 0)).2.2.2.2.1 "t"⟩

/-- If the document loop aborts with an exception, the job it hands the
handler still has progress at most 90 (given the loop's arithmetic
invariant at entry). -/
theorem applyDocs_error_progress (o : ApplyOracle) (n : Nat) (inc : ℚ)
    (hinc : 0 ≤ inc) :
    ∀ (ds : List (Option YamlDoc)) (idx : Nat) (cur : ℚ) (j : Job)
      (m : String) (j' : Job),
      cur + ds.length * inc ≤ 90 → (j.progress : ℤ) ≤ 90 →
      applyDocs o n inc ds idx cur j = .error (m, j') →
      (j'.progress : ℤ) ≤ 90 := by
  intro ds
  induction ds with
  | nil =>
      intro idx cur j m j' _ _ heq
      simp [applyDocs] at heq
  | cons head rest ih =>
      intro idx cur j m j' hbound hprog heq
      have hbound' : cur + (rest.length : ℚ) * inc + inc ≤ 90 := by
        have : ((head :: rest : List (Option YamlDoc)).length : ℚ) =
            (rest.length : ℚ) + 1 := by push_cast [List.length_cons]; ring
        nlinarith [hbound, this]
      cases head with
      | none =>
          refine ih (idx + 1) cur j m j' ?_ hprog ?_
          · nlinarith [hbound']
          · simpa [applyDocs] using heq
      | some d =>
          simp only [applyDocs] at heq
          cases hap : o.apply idx with
          | exited rc out err =>
              rw [hap] at heq
              by_cases hrc : (rc == 0) = true
              · simp only [hrc, if_true] at heq
                have hb2 : cur + inc ≤ 90 := by nlinarith [hbound']
                have hfl : (⌊cur + inc⌋ : ℤ) ≤ 90 := by
                  have h90 := Int.floor_le_floor (α := ℚ) hb2
                  simpa using h90
                refine ih (idx + 1) (cur + inc) _ m j' ?_ ?_ heq
                · nlinarith [hbound']
                · simpa using hfl
              · simp only [hrc, Bool.false_eq_true, if_false,
                  Except.error.injEq, Prod.mk.injEq] at heq
                obtain ⟨-, hj⟩ := heq
                subst hj
                simpa using hprog
          | timedOut e =>
              rw [hap] at heq
              simp only [Except.error.injEq, Prod.mk.injEq] at heq
              obtain ⟨-, hj⟩ := heq
              subst hj
              simpa using hprog
          | notFound =>
              rw [hap] at heq
              simp only [Except.error.injEq, Prod.mk.injEq] at heq
              obtain ⟨-, hj⟩ := heq
              subst hj
              simpa using hprog
          | raised e =>
              rw [hap] at heq
              simp only [Except.error.injEq, Prod.mk.injEq] at heq
              obtain ⟨-, hj⟩ := heq
              subst hj
              simpa using hprog

/-- Claim C1 counterexample: a non-zero playbook exit marks the job failed
with progress still 30 — the terminal transition does not set progress to
100. -/
theorem C1_failed_terminal_progress_not_100 :
    (run_ansible_playbook "create_rosa_hcp_automated.yaml"
        [("name", .str "c"), ("version", .str "v"), ("region", .str "r")]
        (fun _ => .exited 1 "" "boom") 5 (newClusterJob 0)).status =
      .failed ∧
    (run_ansible_playbook "create_rosa_hcp_automated.yaml"
        [("name", .str "c"), ("version", .str "v"), ("region", .str "r")]
        (fun _ => .exited 1 "" "boom") 5 (newClusterJob 0)).progress = 30 ∧
    (30 : Int) ≠ 100 := by
  refine ⟨?_, ?_, ?_⟩ <;> decide

/-- Claim C1 (amended): in all three runners the `completed` transition
sets progress to 100, but no `failed` transition (non-zero exit, timeout,
or exception) ever does — progress keeps its last running value (10 or 30
in the two command runners, at most 90 in the multi-document applier). -/
theorem C1_terminal_progress :
    (∀ (playbook : String) (config : PyDict)
       (proc : List String → ProcResult) (now : Nat) (j : Job),
      ((run_ansible_playbook playbook config proc now j).status =
          .completed →
        (run_ansible_playbook playbook config proc now j).progress = 100) ∧
      ((run_ansible_playbook playbook config proc now j).status = .failed →
        (run_ansible_playbook playbook config proc now j).progress ≠ 100)) ∧
    (∀ (description : String) (playbookBranch : Bool) (o : TaskOracle)
       (fileName nowStr : String) (now : Nat) (j : Job),
      ((run_ansible_task_background description playbookBranch o fileName
            nowStr now j).status = .completed →
        (run_ansible_task_background description playbookBranch o fileName
            nowStr now j).progress = 100) ∧
      ((run_ansible_task_background description playbookBranch o fileName
            nowStr now j).status = .failed →
        (run_ansible_task_background description playbookBranch o fileName
            nowStr now j).progress ≠ 100)) ∧
    (∀ (o : ApplyOracle) (docs : Except String (List (Option YamlDoc)))
       (now : Nat) (j : Job),
      ((apply_yaml_background o docs now j).status = .completed →
        (apply_yaml_background o docs now j).progress = 100) ∧
      ((apply_yaml_background o docs now j).status = .failed →
        (apply_yaml_background o docs now j).progress ≠ 100)) := by
  refine ⟨?_, ?_, ?_⟩
  · intro playbook config proc now j
    unfold run_ansible_playbook
    cases hcmd : buildPlaybookCmd playbook config with
    | error e => simp
    | ok cmd =>
        cases hp : proc cmd with
        | exited rc out err =>
            by_cases h : (rc == 0) = true <;> simp [hp, h]
        | timedOut e => simp [hp]
        | notFound => simp [hp]
        | raised e => simp [hp]
  · intro description playbookBranch o fileName nowStr now j
    unfold run_ansible_task_background
    cases playbookBranch with
    | true =>
        by_cases hex : o.fileExists = true
        · simp only [hex, Bool.not_true, Bool.false_eq_true, if_false,
            if_true]
          cases hp : o.proc with
          | exited rc out err =>
              by_cases h : (rc == 0) = true <;>
                simp [hp, h, taskTerminalWrite]
          | timedOut e => simp [hp, taskExceptHandler]
          | notFound => simp [hp, taskExceptHandler]
          | raised e => simp [hp, taskExceptHandler]
        · simp [hex, taskExceptHandler]
    | false =>
        by_cases hex : o.fileExists = true
        · simp only [hex, Bool.not_true, Bool.false_eq_true, if_false,
            if_true, Bool.false_eq_true]
          cases hp : o.proc with
          | exited rc out err =>
              by_cases h : (rc == 0) = true <;>
                simp [hp, h, taskTerminalWrite]
          | timedOut e => simp [hp, taskExceptHandler]
          | notFound => simp [hp, taskExceptHandler]
          | raised e =>
              cases hbp : o.brokenPipe with
              | some p =>
                  obtain ⟨out, err⟩ := p
                  simp [hp, hbp, taskTerminalWrite]
              | none => simp [hp, hbp, taskExceptHandler]
        · simp [hex, taskExceptHandler]
  · intro o docs now j
    cases docs with
    | error m => simp [apply_yaml_background, applyYamlExcept]
    | ok ds =>
        have hinc : 0 ≤ (70 : ℚ) / ((max ds.length 1 : ℕ) : ℚ) := by
          positivity
        simp only [apply_yaml_background]
        split
        · simp
        · rename_i mname jerr heq
          have hb : (20 : ℚ) + ds.length * (70 / ((max ds.length 1 : ℕ) : ℚ)) ≤
              90 := by
            rcases Nat.eq_zero_or_pos ds.length with h0 | hpos
            · rw [h0]
              norm_num
            · have hmax : max ds.length 1 = ds.length :=
                Nat.max_eq_left hpos
              have hne : ((ds.length : ℕ) : ℚ) ≠ 0 := by
                exact_mod_cast Nat.pos_iff_ne_zero.mp hpos
              rw [hmax]
              field_simp
              norm_num
          have hle := applyDocs_error_progress o ds.length _ hinc ds 1 20 _
            mname jerr hb (by simp) heq
          simp only [applyYamlExcept]
          constructor
          · intro hst
            simp at hst
          · intro _
            simp only [ne_eq]
            intro hcontra
            rw [hcontra] at hle
            norm_num at hle

/-- Claim C1 witness: the amended theorem applied at a concrete completed
run (progress 100), a concrete missing-file task run (failed, progress not
100), and a concrete parse-failure apply run (failed, progress not 100). -/
theorem C1_terminal_progress_witness :
    (run_ansible_playbook "p.yaml"
        [("name", .str "c"), ("version", .str "v"), ("region", .str "r")]
        (fun _ => .exited 0 "" "") 5 (newClusterJob 0)).progress = 100 ∧
    (run_ansible_task_background "Refresh" true
        ⟨false, .exited 0 "" "", Option.none, fun _ => Option.none,
         fun _ => Option.none, fun _ => Option.none⟩
        "f.yml" "4:39:21 AM" 5 (newClusterJob 0)).progress ≠ 100 ∧
    (apply_yaml_background
        ⟨fun _ => .exited 0 "" "", fun _ => .exited 0 "" "",
         fun _ => .exited 0 "" ""⟩
        (.error "bad yaml") 5 (newApplyYamlJob 0)).progress ≠ 100 :=
  ⟨(C1_terminal_progress.1 "p.yaml"
      [("name", .str "c"), ("version", .str "v"), ("region", .str "r")]
      (fun _ => .exited 0 "" "") 5 (newClusterJob 0)).1 (by decide),
   (C1_terminal_progress.2.1 "Refresh" true
      ⟨false, .exited 0 "" "", Option.none, fun _ => Option.none,
       fun _ => Option.none, fun _ => Option.none⟩
      "f.yml" "4:39:21 AM" 5 (newClusterJob 0)).2 (by decide),
   (C1_terminal_progress.2.2
      ⟨fun _ => .exited 0 "" "", fun _ => .exited 0 "" "",
       fun _ => .exited 0 "" ""⟩
      (.error "bad yaml") 5 (newApplyYamlJob 0)).2 (by decide)⟩

/-- The best-effort secret-copy step never logs an "Applying document"
line: all its entries are secret-related notes. -/
theorem secretExtra_no_applying (o : ApplyOracle) (idx : Nat)
    (kind name : String) (mns : Option String) :
    ∀ e ∈ secretExtra o idx kind name mns, ∀ k, e.isApplyingIdx k = false := by
  intro e he k
  cases mns with
  | some s =>
      simp only [secretExtra] at he
      by_cases hns : (s == "") = true
      · simp [hns] at he
      · simp only [hns, Bool.false_eq_true, if_false] at he
        cases hcs : o.checkSecret idx with
        | exited rc out err =>
          rw [hcs] at he
          by_cases hrc : (rc == 0) = true
          · simp only [hrc, if_true] at he
            cases hcp : o.copySecret idx with
            | exited rc2 out2 err2 =>
              rw [hcp] at he
              by_cases hrc2 : (rc2 == 0) = true
              · simp only [hrc2, if_true] at he
                simp at he
                rcases he with rfl | rfl <;> rfl
              · simp only [hrc2, Bool.false_eq_true, if_false] at he
                simp at he
                rcases he with rfl | rfl <;> rfl
            | timedOut m =>
              rw [hcp] at he
              simp at he
              rcases he with rfl | rfl <;> rfl
            | notFound =>
              rw [hcp] at he
              simp at he
              rcases he with rfl | rfl <;> rfl
            | raised m =>
              rw [hcp] at he
              simp at he
              rcases he with rfl | rfl <;> rfl
          · simp only [hrc, Bool.false_eq_true, if_false] at he
            simp at he
            rcases he with rfl | rfl <;> rfl
        | timedOut m =>
          rw [hcs] at he
          simp at he
          rcases he with rfl | rfl <;> rfl
        | notFound =>
          rw [hcs] at he
          simp at he
          rcases he with rfl | rfl <;> rfl
        | raised m =>
          rw [hcs] at he
          simp at he
          rcases he with rfl | rfl <;> rfl
  | none =>
      simp only [secretExtra] at he
      by_cases hk : (kind == "Namespace") = true
      · simp only [hk, if_true] at he
        by_cases hns : (name == "") = true
        · simp [hns] at he
        · simp only [hns, Bool.false_eq_true, if_false] at he
          cases hcs : o.checkSecret idx with
          | exited rc out err =>
            rw [hcs] at he
            by_cases hrc : (rc == 0) = true
            · simp only [hrc, if_true] at he
              cases hcp : o.copySecret idx with
              | exited rc2 out2 err2 =>
                rw [hcp] at he
                by_cases hrc2 : (rc2 == 0) = true
                · simp only [hrc2, if_true] at he
                  simp at he
                  rcases he with rfl | rfl <;> rfl
                · simp only [hrc2, Bool.false_eq_true, if_false] at he
                  simp at he
                  rcases he with rfl | rfl <;> rfl
              | timedOut m =>
                rw [hcp] at he
                simp at he
                rcases he with rfl | rfl <;> rfl
              | notFound =>
                rw [hcp] at he
                simp at he
                rcases he with rfl | rfl <;> rfl
              | raised m =>
                rw [hcp] at he
                simp at he
                rcases he with rfl | rfl <;> rfl
            · simp only [hrc, Bool.false_eq_true, if_false] at he
              simp at he
              rcases he with rfl | rfl <;> rfl
          | timedOut m =>
            rw [hcs] at he
            simp at he
            rcases he with rfl | rfl <;> rfl
          | notFound =>
            rw [hcs] at he
            simp at he
            rcases he with rfl | rfl <;> rfl
          | raised m =>
            rw [hcs] at he
            simp at he
            rcases he with rfl | rfl <;> rfl
      · simp [hk] at he

/-- The secret-copy step only depends on the oracle at its own index. -/
theorem secretExtra_congr (o o' : ApplyOracle) (idx : Nat)
    (kind name : String) (mns : Option String)
    (hcs : o'.checkSecret idx = o.checkSecret idx)
    (hcp : o'.copySecret idx = o.copySecret idx) :
    secretExtra o' idx kind name mns = secretExtra o idx kind name mns := by
  unfold secretExtra
  rw [hcs, hcp]

/-- Claim C4: for a three-document sequence where document 1 applies
cleanly and document 2's apply exits non-zero, the job ends failed with a
message naming document 2's kind/name; the logs contain document 1's
attempt and success entries and document 2's attempt and failure entries;
no log line is the "Applying document 3" entry; and the run never consults
the oracle beyond documents 1 and 2 (any oracle agreeing there produces
the identical job). -/
theorem C4_multidoc_abort_on_failure (d1 d2 d3 : YamlDoc) (o : ApplyOracle)
    (rc2 : Int) (out1 err1 out2 err2 : String) (now c0 : Nat)
    (h1 : o.apply 1 = .exited 0 out1 err1)
    (h2 : o.apply 2 = .exited rc2 out2 err2)
    (hrc2 : (rc2 == 0) = false) :
    (apply_yaml_background o (.ok [some d1, some d2, some d3]) now
        (newApplyYamlJob c0)).status = .failed ∧
    (apply_yaml_background o (.ok [some d1, some d2, some d3]) now
        (newApplyYamlJob c0)).message =
      "Error applying YAML: " ++ ("Failed to apply " ++ d2.kind.getD "Unknown" ++
        "/" ++ d2.mname.getD "Unknown" ++ ": " ++ err2) ∧
    LogEntry.applying 1 3 (d1.kind.getD "Unknown") (d1.mname.getD "Unknown") ∈
      (apply_yaml_background o (.ok [some d1, some d2, some d3]) now
        (newApplyYamlJob c0)).logs ∧
    LogEntry.applySuccess (pyStrip out1) ∈
      (apply_yaml_background o (.ok [some d1, some d2, some d3]) now
        (newApplyYamlJob c0)).logs ∧
    LogEntry.applying 2 3 (d2.kind.getD "Unknown") (d2.mname.getD "Unknown") ∈
      (apply_yaml_background o (.ok [some d1, some d2, some d3]) now
        (newApplyYamlJob c0)).logs ∧
    LogEntry.applyFailed (pyStrip err2) ∈
      (apply_yaml_background o (.ok [some d1, some d2, some d3]) now
        (newApplyYamlJob c0)).logs ∧
    (∀ e ∈ (apply_yaml_background o (.ok [some d1, some d2, some d3]) now
        (newApplyYamlJob c0)).logs, e.isApplyingIdx 3 = false) ∧
    (∀ o' : ApplyOracle, o'.apply 1 = o.apply 1 → o'.apply 2 = o.apply 2 →
      o'.checkSecret 1 = o.checkSecret 1 →
      o'.copySecret 1 = o.copySecret 1 →
      apply_yaml_background o' (.ok [some d1, some d2, some d3]) now
          (newApplyYamlJob c0) =
        apply_yaml_background o (.ok [some d1, some d2, some d3]) now
          (newApplyYamlJob c0)) := by
  have hlogs : (apply_yaml_background o (.ok [some d1, some d2, some d3]) now
      (newApplyYamlJob c0)).logs =
      [LogEntry.parsedDocs 3,
       LogEntry.applying 1 3 (d1.kind.getD "Unknown") (d1.mname.getD "Unknown"),
       LogEntry.applySuccess (pyStrip out1)] ++
      (if (d1.kind.getD "Unknown" == "Namespace" ||
           d1.kind.getD "Unknown" == "ManagedCluster") = true then
        secretExtra o 1 (d1.kind.getD "Unknown") (d1.mname.getD "Unknown")
          d1.mnamespace
      else []) ++
      [LogEntry.applying 2 3 (d2.kind.getD "Unknown") (d2.mname.getD "Unknown"),
       LogEntry.applyFailed (pyStrip err2),
       LogEntry.applyError ("Failed to apply " ++ d2.kind.getD "Unknown" ++
         "/" ++ d2.mname.getD "Unknown" ++ ": " ++ err2)] := by
    by_cases hk : (d1.kind.getD "Unknown" == "Namespace" ||
        d1.kind.getD "Unknown" == "ManagedCluster") = true <;>
      simp [apply_yaml_background, applyDocs, h1, h2, hrc2, hk,
        applyYamlExcept, newApplyYamlJob]
  have hst : (apply_yaml_background o (.ok [some d1, some d2, some d3]) now
      (newApplyYamlJob c0)).status = .failed := by
    by_cases hk : (d1.kind.getD "Unknown" == "Namespace" ||
        d1.kind.getD "Unknown" == "ManagedCluster") = true <;>
      simp [apply_yaml_background, applyDocs, h1, h2, hrc2, hk,
        applyYamlExcept, newApplyYamlJob]
  have hmsg : (apply_yaml_background o (.ok [some d1, some d2, some d3]) now
      (newApplyYamlJob c0)).message =
      "Error applying YAML: " ++ ("Failed to apply " ++ d2.kind.getD "Unknown" ++
        "/" ++ d2.mname.getD "Unknown" ++ ": " ++ err2) := by
    by_cases hk : (d1.kind.getD "Unknown" == "Namespace" ||
        d1.kind.getD "Unknown" == "ManagedCluster") = true <;>
      simp [apply_yaml_background, applyDocs, h1, h2, hrc2, hk,
        applyYamlExcept, newApplyYamlJob]
  refine ⟨hst, hmsg, ?_, ?_, ?_, ?_, ?_, ?_⟩
  · rw [hlogs]; simp
  · rw [hlogs]; simp
  · rw [hlogs]; simp
  · rw [hlogs]; simp
  · rw [hlogs]
    intro e he
    simp only [List.append_assoc, List.mem_append, List.mem_cons,
      List.not_mem_nil, or_false] at he
    rcases he with (rfl | rfl | rfl) | he | (rfl | rfl | rfl)
    · rfl
    · rfl
    · rfl
    · revert he
      split
      · intro he
        exact secretExtra_no_applying o 1 _ _ _ e he 3
      · intro he
        simp at he
    · rfl
    · rfl
    · rfl
  · intro o' ho1 ho2 hcs hcp
    have hse := secretExtra_congr o o' 1 (d1.kind.getD "Unknown")
      (d1.mname.getD "Unknown") d1.mnamespace hcs hcp
    simp [apply_yaml_background, applyDocs, ho1, ho2, h1, h2, hrc2, hse]

/-- Claim C4 witness: the theorem applied at a concrete three-document
sequence whose second apply fails. -/
theorem C4_multidoc_abort_on_failure_witness :
    (apply_yaml_background
        ⟨fun i => if i == 1 then .exited 0 "ns created" ""
                  else .exited 1 "" "boom",
         fun _ => .exited 1 "" "", fun _ => .exited 0 "" ""⟩
        (.ok [some { kind := some "Namespace", mname := some "ns1" },
              some { kind := some "ROSACluster", mname := some "c1" },
              some { kind := some "RosaNetwork", mname := some "net1" }])
        9 (newApplyYamlJob 4)).status = .failed ∧
    LogEntry.applyFailed (pyStrip "boom") ∈
      (apply_yaml_background
        ⟨fun i => if i == 1 then .exited 0 "ns created" ""
                  else .exited 1 "" "boom",
         fun _ => .exited 1 "" "", fun _ => .exited 0 "" ""⟩
        (.ok [some { kind := some "Namespace", mname := some "ns1" },
              some { kind := some "ROSACluster", mname := some "c1" },
              some { kind := some "RosaNetwork", mname := some "net1" }])
        9 (newApplyYamlJob 4)).logs :=
  ⟨(C4_multidoc_abort_on_failure
      { kind := some "Namespace", mname := some "ns1" }
      { kind := some "ROSACluster", mname := some "c1" }
      { kind := some "RosaNetwork", mname := some "net1" }
      ⟨fun i => if i == 1 then .exited 0 "ns created" ""
                else .exited 1 "" "boom",
       fun _ => .exited 1 "" "", fun _ => .exited 0 "" ""⟩
      1 "ns created" "" "" "boom" 9 4 (by decide) (by decide) (by decide)).1,
   (C4_multidoc_abort_on_failure
      { kind := some "Namespace", mname := some "ns1" }
      { kind := some "ROSACluster", mname := some "c1" }
      { kind := some "RosaNetwork", mname := some "net1" }
      ⟨fun i => if i == 1 then .exited 0 "ns created" ""
                else .exited 1 "" "boom",
       fun _ => .exited 1 "" "", fun _ => .exited 0 "" ""⟩
      1 "ns created" "" "" "boom" 9 4 (by decide) (by decide)
      (by decide)).2.2.2.2.2.1⟩

end ACapi
